import Mathlib

set_option maxHeartbeats 1000000

/-!
Shallow embedding of `src/Msi-Chapter3-Ensyu/lambda/lambda_function.py`,
an AWS Lambda CRUD handler for a single `Items` table in DynamoDB.

External collaborators (the Python `json` module, `boto3`/DynamoDB) are
modelled explicitly: `json.loads` is an oracle parameter, the DynamoDB
table is a string-keyed association list of items plus per-operation
fault-injection flags for `botocore` `ClientError`s, and the `scan`
pagination protocol is a continuation oracle driven by fuel (the Python
`while True` loop).
-/

/-- Decimal fixed-point number as produced by DynamoDB (`decimal.Decimal`):
the represented value is `mant / 10 ^ exp`. -/
structure PyDecimal where
  mant : Int
  exp : Nat
  deriving DecidableEq, Repr

/-- JSON-like Python values: results of `json.loads` on request bodies and
attribute values living in the DynamoDB table (which may hold native
`decimal.Decimal` numbers). -/
inductive JVal where
  | null : JVal
  | bool (b : Bool) : JVal
  | int (n : Int) : JVal
  | dec (d : PyDecimal) : JVal
  | str (s : String) : JVal
  | arr (xs : List JVal) : JVal
  | obj (kvs : List (String × JVal)) : JVal
  deriving Repr

/-- A DynamoDB item: a map from attribute names to values
(`dict` in the Python code). -/
abbrev Item : Type := List (String × JVal)

/-- The DynamoDB table contents, keyed by the `id` attribute (partition key
of type S). -/
abbrev Store : Type := List (String × Item)

/-- Python truthiness (`bool(v)`) on the values of `JVal`. -/
def pyTruthy : JVal → Bool
  | .null => false
  | .bool b => b
  | .int n => n ≠ 0
  | .dec d => d.mant ≠ 0
  | .str s => s ≠ ""
  | .arr xs => !xs.isEmpty
  | .obj kvs => !kvs.isEmpty

/-- Python `str(Decimal)` rendering, e.g. `str(Decimal("1.5")) = "1.5"`.
Digits of the scaled integer with a decimal point inserted `exp` digits
from the right. -/
def pyDecStr (d : PyDecimal) : String :=
  if d.exp = 0 then toString d.mant
  else
    let sign := if d.mant < 0 then "-" else ""
    let digits := toString d.mant.natAbs
    let digits := if digits.length ≤ d.exp then
        String.mk (List.replicate (d.exp + 1 - digits.length) '0') ++ digits
      else digits
    let whole := digits.take (digits.length - d.exp)
    let frac := digits.drop (digits.length - d.exp)
    sign ++ whole ++ "." ++ frac

mutual

/-- Python `repr(v)`, as far as needed here: used by `str()` on lists and
dicts. String escaping subtleties are not reproduced (no claim depends on
them); only the overall shape (bracketed, hence non-blank) matters. -/
def pyRepr : JVal → String
  | .null => "None"
  | .bool true => "True"
  | .bool false => "False"
  | .int n => toString n
  | .dec d => "Decimal(\x27" ++ pyDecStr d ++ "\x27)"
  | .str s => "\x27" ++ s ++ "\x27"
  | .arr xs => "[" ++ String.intercalate ", " (pyReprList xs) ++ "]"
  | .obj kvs => "\x7b" ++ String.intercalate ", " (pyReprObj kvs) ++ "\x7d"

def pyReprList : List JVal → List String
  | [] => []
  | x :: xs => pyRepr x :: pyReprList xs

def pyReprObj : List (String × JVal) → List String
  | [] => []
  | (k, v) :: kvs => ("\x27" ++ k ++ "\x27: " ++ pyRepr v) :: pyReprObj kvs

end

/-- Python `str(v)` on a `JVal` (`str()` and `repr()` agree except on
strings themselves). -/
def pyStr : JVal → String
  | .null => "None"
  | .bool true => "True"
  | .bool false => "False"
  | .int n => toString n
  | .dec d => pyDecStr d
  | .str s => s
  | .arr xs => pyRepr (.arr xs)
  | .obj kvs => pyRepr (.obj kvs)

/-- Dict lookup (`d.get(k)` / `k in d`): first binding of the key.
Bodies produced by `json.loads` and items produced by the handler carry
each key at most once. -/
def dictGet (kvs : List (String × JVal)) (k : String) : Option JVal :=
  match kvs with
  | [] => none
  | (k', v) :: rest => if k' = k then some v else dictGet rest k

/-- Table lookup by partition key (`id`). -/
def storeGet (st : Store) (k : String) : Option Item :=
  match st with
  | [] => none
  | (k', it) :: rest => if k' = k then some it else storeGet rest k

/-! ### Decimal JSON encoding (`DecimalEncoder`) -/

/-- The JSON token a numeric attribute value is rendered to by the
serializer: an integer literal, a float literal, or a quoted string. -/
inductive NumToken where
  | jint (n : Int) : NumToken
  | jfloat (d : PyDecimal) : NumToken
  | jstr (s : String) : NumToken
  deriving DecidableEq, Repr

/-- `o % 1 == 0` on a `decimal.Decimal`: the value `mant / 10^exp` is an
exact integer. -/
def decIntegral (d : PyDecimal) : Prop := ((10 : Int) ^ d.exp) ∣ d.mant

instance (d : PyDecimal) : Decidable (decIntegral d) :=
  inferInstanceAs (Decidable (_ ∣ _))

/-- `int(o)` on an exactly-integral `decimal.Decimal`. -/
def decToInt (d : PyDecimal) : Int := d.mant / (10 : Int) ^ d.exp

/-- `DecimalEncoder.default`: render a `decimal.Decimal` as `int(o)` when
`o % 1 == 0`, else as `float(o)` (kept symbolically as the decimal, since
only the choice of JSON token matters to the contract). -/
def DecimalEncoder.default (o : PyDecimal) : NumToken :=
  if decIntegral o then .jint (decToInt o) else .jfloat o

/-! ### HTTP plumbing -/

/-- Environment-driven settings (`os.environ.get` with defaults). The table
name only selects the external collaborator and does not influence the
handler logic modelled here. -/
structure Config where
  corsAllowOrigin : String
  corsAllowHeaders : String
  corsAllowMethods : String

/-- `_headers()`. -/
def _headers (cfg : Config) : List (String × String) :=
  [("Access-Control-Allow-Origin", cfg.corsAllowOrigin),
   ("Access-Control-Allow-Methods", cfg.corsAllowMethods),
   ("Access-Control-Allow-Headers", cfg.corsAllowHeaders),
   ("Content-Type", "application/json; charset=utf-8")]

/-- A response body: either a raw string (passed through unchanged by `R`)
or a Python value that `R` serializes with `dumps`. The serialized text is
kept symbolically as the value. -/
inductive RB where
  | str (s : String) : RB
  | val (j : JVal) : RB

/-- The response shape returned by the handler. -/
structure Response where
  statusCode : Nat
  headers : List (String × String)
  body : RB

/-- `R(code, body)`. -/
def R (cfg : Config) (code : Nat) (body : RB) : Response :=
  ⟨code, _headers cfg, body⟩

/-- `dumps({"message": m})` bodies used throughout the handler. -/
def msgBody (m : String) : RB := .val (.obj [("message", .str m)])

/-- The inbound Lambda event, restricted to the fields the handler reads.
`none` models an absent field (or a `None` value); `rcHttpMethod` is
`event["requestContext"]["http"]["method"]`, `pathParametersId` is
`event["pathParameters"]["id"]` (absent map or absent key both `none`). -/
structure Event where
  httpMethod : Option String
  rcHttpMethod : Option String
  path : Option String
  rawPath : Option String
  pathParametersId : Option String
  body : Option String

/-- Python truthiness of an optional string (`None` and `""` are falsy). -/
def optTruthy : Option String → Bool
  | some s => s != ""
  | none => false

/-- Python `a or b` on optional strings. -/
def pyOrStr (a b : Option String) : Option String :=
  if optTruthy a then a else b

/-- Python `s.upper()`: uppercase each character (ASCII suffices for the
method names involved). -/
def pyUpper (s : String) : String := String.mk (s.data.map Char.toUpper)

/-- Python `s.strip()`: drop whitespace from both ends. -/
def pyStrip (s : String) : String :=
  String.mk (((s.data.dropWhile Char.isWhitespace).reverse.dropWhile
    Char.isWhitespace).reverse)

/-- `splitCharAux` / `pySplitChar`: Python `s.split(c)` for a one-character
separator (`"".split("/") == [""]`, separators at the ends produce empty
segments). -/
def splitCharAux (c : Char) : List Char → List Char → List String
  | [], acc => [String.mk acc.reverse]
  | x :: xs, acc =>
    if x = c then String.mk acc.reverse :: splitCharAux c xs []
    else splitCharAux c xs (x :: acc)

def pySplitChar (c : Char) (s : String) : List String :=
  splitCharAux c s.data []

/-- `_method(event)`: `(event.get("httpMethod") or
event["requestContext"]["http"]["method"] or "GET").upper()`. -/
def _method (e : Event) : String :=
  pyUpper (match pyOrStr e.httpMethod e.rcHttpMethod with
    | some s => if s = "" then "GET" else s
    | none => "GET")

/-- `_path(event)`: `event.get("path") or event.get("rawPath") or "/"`. -/
def _path (e : Event) : String :=
  match pyOrStr e.path e.rawPath with
  | some s => if s = "" then "/" else s
  | none => "/"

/-- `_path_id(event, path)`: prefer a truthy `pathParameters.id`, else parse
`/items/{id...}` by splitting on `/`, dropping empty segments, and joining
everything after a leading `items` segment back with `/`. -/
def _path_id (e : Event) (path : String) : Option String :=
  if optTruthy e.pathParametersId then e.pathParametersId
  else
    let seg := (pySplitChar '/' path).filter (fun s => s != "")
    if 2 ≤ seg.length ∧ seg.head? = some "items" then
      some (String.intercalate "/" (seg.drop 1))
    else
      none

/-- `_parse_json_body(event)`: empty or absent body is `{}`; otherwise
`json.loads` (the oracle `loads`; `none` models any parse exception), with
failure re-raised as `ValueError("Invalid JSON body")`. -/
def _parse_json_body (b : Option String) (loads : String → Option JVal) :
    Except String JVal :=
  match b with
  | none => .ok (.obj [])
  | some s =>
    if s = "" then .ok (.obj [])
    else
      match loads s with
      | some j => .ok j
      | none => .error "Invalid JSON body"

/-! ### DynamoDB collaborator model -/

/-- One call issued to the DynamoDB table object, for stating
"no store call is made" and frame properties. -/
inductive DbCall where
  | get (key : String) : DbCall
  | scan (excl : Option Nat) : DbCall
  | put (item : Item) : DbCall
  | update (key : String) (sets : List (String × JVal)) : DbCall
  | delete (key : JVal) : DbCall

/-- `db.put_item(Item=item, ConditionExpression="attribute_not_exists(#k)",
ExpressionAttributeNames={"#k": "id"})`: fails with a `ClientError` of code
`ConditionalCheckFailedException` when the key is already present, appends
the item otherwise. `fault` injects any other `ClientError` (throttling,
validation, ...) by its code, which takes the place of the store's answer. -/
def put_item_cond (st : Store) (key : String) (it : Item)
    (fault : Option String) : Except String Store :=
  match fault with
  | some code => .error code
  | none =>
    match storeGet st key with
    | some _ => .error "ConditionalCheckFailedException"
    | none => .ok (st ++ [(key, it)])

/-- `SET #a = :v` on one attribute of an item: overwrite in place or append. -/
def setAttr (it : Item) (k : String) (v : JVal) : Item :=
  match it with
  | [] => [(k, v)]
  | (k', v') :: rest => if k' = k then (k, v) :: rest else (k', v') :: setAttr rest k v

/-- Apply a `SET` clause list left to right. -/
def applySets (it : Item) (sets : List (String × JVal)) : Item :=
  match sets with
  | [] => it
  | (k, v) :: rest => applySets (setAttr it k v) rest

/-- Replace (or create) the binding of key `k` in the table. -/
def storePut (st : Store) (k : String) (it : Item) : Store :=
  match st with
  | [] => [(k, it)]
  | (k', it') :: rest => if k' = k then (k, it) :: rest else (k', it') :: storePut rest k it

/-- `db.update_item(Key={"id": key}, UpdateExpression="SET ...")`: DynamoDB
upsert semantics — applies the `SET` clauses to the stored item, creating
an item holding only the key and the set attributes when none exists.
`fault` injects a `ClientError`. -/
def update_item (st : Store) (key : String) (sets : List (String × JVal))
    (fault : Bool) : Except Unit Store :=
  if fault then .error ()
  else
    match storeGet st key with
    | some it => .ok (storePut st key (applySets it sets))
    | none => .ok (st ++ [(key, applySets [("id", .str key)] sets)])

/-- Remove every binding of key `s` from the table. -/
def storeErase (st : Store) (s : String) : Store :=
  st.filter (fun kv => kv.1 != s)

/-- `db.delete_item(Key={"id": key})`: removing an absent key succeeds.
A key value that is not a string raises a `ClientError`
(`ValidationException`, key type mismatch against the S-typed partition
key); `fault` injects any other `ClientError`. -/
def delete_item (st : Store) (key : JVal) (fault : Bool) : Except Unit Store :=
  if fault then .error ()
  else
    match key with
    | .str s => .ok (storeErase st s)
    | _ => .error ()

/-- `_scan_all()`'s `while True` loop, driven by fuel: each iteration calls
`db.scan` (the `oracle`, from continuation key to page plus next key),
extends the accumulator, and stops when no `LastEvaluatedKey` is returned.
`none` in the first component means the fuel ran out before the loop ended
(the Python loop would still be running). -/
def scanLoop (oracle : Option Nat → List Item × Option Nat) :
    Nat → Option Nat → List Item → List DbCall → Option (List Item) × List DbCall
  | 0, _, _, calls => (none, calls)
  | fuel + 1, excl, items, calls =>
    let page := oracle excl
    match page.2 with
    | none => (some (items ++ page.1), calls ++ [.scan excl])
    | some k => scanLoop oracle fuel (some k) (items ++ page.1) (calls ++ [.scan excl])

/-- The DynamoDB table collaborator: current contents, the scan pagination
oracle with its fuel, and per-operation injected `ClientError`s (`none` /
`false` meaning the store answers normally). -/
structure Db where
  table : Store
  scanOracle : Option Nat → List Item × Option Nat
  scanFuel : Nat
  getErr : Bool
  putErr : Option String
  updErr : Bool
  delErr : Bool

/-- Result of one handler invocation: the response, the table contents
afterwards and the calls issued — or divergence of the scan loop. -/
inductive Outcome where
  | resp (r : Response) (table : Store) (calls : List DbCall) : Outcome
  | diverge (calls : List DbCall) : Outcome

/-- The HTTP response of an outcome (none when the scan loop diverges). -/
def Outcome.response : Outcome → Option Response
  | .resp r _ _ => some r
  | .diverge _ => none

/-- `all(k in body and str(body[k]).strip() for k in required)` with
`required = ("id", "description", "date")`. -/
def postRequiredOk (kvs : List (String × JVal)) : Bool :=
  ["id", "description", "date"].all fun k =>
    match dictGet kvs k with
    | some v => pyStrip (pyStr v) != ""
    | none => false

/-- `None if body[k] is None else str(body[k])` for the PUT value map. -/
def strOrNull (v : JVal) : JVal :=
  match v with
  | .null => .null
  | v => .str (pyStr v)

/-- The `SET` clauses built by the PUT branch: one clause per key among
`description` / `date` present in the body, in that order. -/
def putSets (kvs : List (String × JVal)) : List (String × JVal) :=
  (match dictGet kvs "description" with
   | some v => [("description", strOrNull v)]
   | none => [])
  ++
  (match dictGet kvs "date" with
   | some v => [("date", strOrNull v)]
   | none => [])

/-- Python truthiness of `del_id` (`None` or a falsy value fails the
`if not del_id` guard). -/
def optJTruthy : Option JVal → Bool
  | some v => pyTruthy v
  | none => false

/-- `del_id = i or (body.get("id") if isinstance(body, dict) else None)`. -/
def delIdOf (i : Option String) (body : JVal) : Option JVal :=
  if optTruthy i then i.map JVal.str
  else
    match body with
    | .obj kvs => dictGet kvs "id"
    | _ => none

/-- The dispatch on `(method, id, body)` after body parsing — the chain of
`if` blocks of `lambda_handler` (source lines 100–181). Uncaught store
exceptions (the unguarded `get_item`) are rendered here as the generic 500
the top-level `except Exception` produces. -/
def route (cfg : Config) (m : String) (i : Option String) (body : JVal)
    (db : Db) : Outcome :=
  if m = "OPTIONS" then
    .resp ⟨204, _headers cfg ++ [("Access-Control-Max-Age", "600")], .str ""⟩
      db.table []
  else if m = "GET" then
    (if optTruthy i then
      (if db.getErr then
        .resp (R cfg 500 (msgBody "サーバ内部エラー")) db.table [.get (i.getD "")]
      else
        .resp (R cfg 200 (.val (match storeGet db.table (i.getD "") with
          | some it => .obj it
          | none => .null))) db.table [.get (i.getD "")])
    else
      match scanLoop db.scanOracle db.scanFuel none [] [] with
      | (some items, calls) =>
        .resp (R cfg 200 (.val (.arr (items.map JVal.obj)))) db.table calls
      | (none, calls) => .diverge calls)
  else if m = "POST" ∧ optTruthy i = false then
    (match body with
    | .obj kvs =>
      if postRequiredOk kvs then
        let idS := pyStrip (pyStr ((dictGet kvs "id").getD .null))
        let item : Item :=
          [("id", .str idS),
           ("description", .str (pyStr ((dictGet kvs "description").getD .null))),
           ("date", .str (pyStr ((dictGet kvs "date").getD .null)))]
        match put_item_cond db.table idS item db.putErr with
        | .ok st2 => .resp (R cfg 200 (msgBody "created")) st2 [.put item]
        | .error code =>
          if code = "ConditionalCheckFailedException" then
            .resp (R cfg 409 (msgBody "同じIDが既に存在します")) db.table [.put item]
          else
            .resp (R cfg 500 (msgBody "サーバ内部エラー")) db.table [.put item]
      else
        .resp (R cfg 400 (msgBody "必須項目不足: id, description, date を指定してください"))
          db.table []
    | _ =>
      .resp (R cfg 400 (msgBody "必須項目不足: id, description, date を指定してください"))
        db.table [])
  else if m = "PUT" ∧ optTruthy i then
    (match body with
    | .obj kvs =>
      if (putSets kvs).isEmpty then
        .resp (R cfg 400 (msgBody "更新対象のフィールドがありません (description / date)"))
          db.table []
      else
        match update_item db.table (i.getD "") (putSets kvs) db.updErr with
        | .ok st2 =>
          .resp (R cfg 200 (msgBody "updated")) st2 [.update (i.getD "") (putSets kvs)]
        | .error _ =>
          .resp (R cfg 500 (msgBody "サーバ内部エラー")) db.table
            [.update (i.getD "") (putSets kvs)]
    | _ => .resp (R cfg 400 (msgBody "JSON本文が必要です")) db.table [])
  else if m = "DELETE" then
    (match delIdOf i body with
    | none => .resp (R cfg 400 (msgBody "id 必須")) db.table []
    | some v =>
      if pyTruthy v then
        match delete_item db.table v db.delErr with
        | .ok st2 => .resp (R cfg 200 (msgBody "deleted")) st2 [.delete v]
        | .error _ =>
          .resp (R cfg 500 (msgBody "サーバ内部エラー")) db.table [.delete v]
      else
        .resp (R cfg 400 (msgBody "id 必須")) db.table [])
  else
    .resp (R cfg 405 (msgBody "unsupported")) db.table []

/-- `lambda_handler(event, _context)`: resolve method, path, id; parse the
body (a `ValueError` is answered with a 400 carrying the error text by the
top-level `except ValueError`); then dispatch. The logging call has no
observable effect and is not modelled. -/
def lambda_handler (cfg : Config) (e : Event) (loads : String → Option JVal)
    (db : Db) : Outcome :=
  match _parse_json_body e.body loads with
  | .error msg => .resp (R cfg 400 (msgBody msg)) db.table []
  | .ok body => route cfg (_method e) (_path_id e (_path e)) body db

/-! ### Derived notions used in the statements -/

/-- `isinstance(body, dict)`. -/
def JVal.isObj : JVal → Bool
  | .obj _ => true
  | _ => false

/-- `isinstance(body, dict) and all(k in body and str(body[k]).strip() for k
in required)`: the whole POST validation condition. -/
def postBodyOk (body : JVal) : Bool :=
  match body with
  | .obj kvs => postRequiredOk kvs
  | _ => false

/-- The scan continuation chain starting at `k` reaches a page with no
`LastEvaluatedKey` within `n` calls ("the continuation chain is finite"). -/
def scanStops (oracle : Option Nat → List Item × Option Nat) :
    Nat → Option Nat → Bool
  | 0, _ => false
  | n + 1, k =>
    match (oracle k).2 with
    | none => true
    | some k2 => scanStops oracle n (some k2)

/-- The pages returned along the continuation chain starting at `k`
(truncated at `n` calls). -/
def scanPages (oracle : Option Nat → List Item × Option Nat) :
    Nat → Option Nat → List (List Item)
  | 0, _ => []
  | n + 1, k =>
    (oracle k).1 ::
      (match (oracle k).2 with
       | none => []
       | some k2 => scanPages oracle n (some k2))

/-- The continuation keys passed to `db.scan` along the chain starting at
`k` (truncated at `n` calls). -/
def scanKeys (oracle : Option Nat → List Item × Option Nat) :
    Nat → Option Nat → List (Option Nat)
  | 0, _ => []
  | n + 1, k =>
    k ::
      (match (oracle k).2 with
       | none => []
       | some k2 => scanKeys oracle n (some k2))

/-! ### Theorems -/

/-- C6 counterexample: an OPTIONS request whose body field is a non-empty
string that does not parse as JSON is answered 400 "Invalid JSON body" with
no CORS-preflight 204 — the body is parsed before the method is examined,
so the 204 is not returned "regardless of body". -/
theorem C6_counterexample :
    _method ⟨some "OPTIONS", none, some "/items", none, none, some "oops"⟩ = "OPTIONS" ∧
    lambda_handler ⟨"*", "Content-Type,Authorization", "GET,POST,PUT,DELETE,OPTIONS"⟩
        ⟨some "OPTIONS", none, some "/items", none, none, some "oops"⟩
        (fun _ => none) ⟨[], fun _ => ([], none), 0, false, none, false, false⟩ =
      .resp (R ⟨"*", "Content-Type,Authorization", "GET,POST,PUT,DELETE,OPTIONS"⟩ 400
        (msgBody "Invalid JSON body")) [] [] :=
  ⟨by rfl, by rfl⟩

/-- C6 (amended): for every request whose resolved method is OPTIONS and
whose body field is absent, empty, or valid JSON, the handler returns 204
with an empty body and the CORS headers plus `Access-Control-Max-Age`, and
makes no store call. -/
theorem C6_options_preflight (cfg : Config) (e : Event)
    (loads : String → Option JVal) (db : Db) (body : JVal)
    (hm : _method e = "OPTIONS")
    (hb : _parse_json_body e.body loads = .ok body) :
    lambda_handler cfg e loads db =
      .resp ⟨204, _headers cfg ++ [("Access-Control-Max-Age", "600")], .str ""⟩
        db.table [] := by
  unfold lambda_handler
  rw [hb]
  unfold route
  rw [hm]
  simp

/-- C6 witness: a concrete OPTIONS request with no body gets the 204
preflight response. -/
theorem C6_options_preflight_witness :
    lambda_handler ⟨"*", "CH", "CM"⟩
        ⟨some "OPTIONS", none, some "/whatever", none, none, none⟩
        (fun _ => none) ⟨[], fun _ => ([], none), 0, false, none, false, false⟩ =
      .resp ⟨204, _headers ⟨"*", "CH", "CM"⟩ ++ [("Access-Control-Max-Age", "600")],
        .str ""⟩ [] [] :=
  C6_options_preflight _ _ _ _ (.obj []) (by rfl) (by rfl)

/-- C3: a request whose body field is a non-empty string that `json.loads`
rejects is answered 400 "Invalid JSON body" with no store call and the
table untouched; an absent or empty body field parses as the empty object
and dispatch proceeds normally on it. -/
theorem C3_body_parsing (cfg : Config) (e : Event)
    (loads : String → Option JVal) (db : Db) :
    (∀ s, e.body = some s → s ≠ "" → loads s = none →
      lambda_handler cfg e loads db =
        .resp (R cfg 400 (msgBody "Invalid JSON body")) db.table []) ∧
    ((e.body = none ∨ e.body = some "") →
      _parse_json_body e.body loads = .ok (.obj []) ∧
      lambda_handler cfg e loads db =
        route cfg (_method e) (_path_id e (_path e)) (.obj []) db) := by
  constructor
  · intro s hs hne hl
    unfold lambda_handler _parse_json_body
    rw [hs]
    simp [hne, hl]
  · intro h
    have hp : _parse_json_body e.body loads = .ok (.obj []) := by
      rcases h with h | h
      · unfold _parse_json_body
        rw [h]
      · unfold _parse_json_body
        rw [h]
        simp
    exact ⟨hp, by unfold lambda_handler; rw [hp]⟩

/-- C3 witness: a concrete unparsable body is answered 400 with no store
call, and a concrete absent body parses as the empty object. -/
theorem C3_body_parsing_witness :
    (lambda_handler ⟨"*", "H", "M"⟩ ⟨some "POST", none, some "/items", none, none, some "oops"⟩
        (fun _ => none) ⟨[], fun _ => ([], none), 0, false, none, false, false⟩ =
      .resp (R ⟨"*", "H", "M"⟩ 400 (msgBody "Invalid JSON body")) [] []) ∧
    _parse_json_body (Event.body ⟨some "GET", none, some "/items", none, none, none⟩)
      (fun _ => none) = .ok (.obj []) :=
  ⟨(C3_body_parsing _ _ _ _).1 "oops" rfl (by decide) rfl,
   ((C3_body_parsing ⟨"*", "H", "M"⟩ ⟨some "GET", none, some "/items", none, none, none⟩
      (fun _ => none) ⟨[], fun _ => ([], none), 0, false, none, false, false⟩).2
      (Or.inl rfl)).1⟩

/-- C5 counterexample: with a path-parameters `id` entry that is present
but empty, the resolved id is taken from the path instead of being the
entry's value. -/
theorem C5_counterexample :
    Event.pathParametersId ⟨none, none, none, none, some "", none⟩ = some "" ∧
    _path_id ⟨none, none, none, none, some "", none⟩ "/items/x" = some "x" ∧
    (some "x" : Option String) ≠ some "" :=
  ⟨rfl, by rfl, by decide⟩

/-- C5 (amended): the resolved resource id equals the `pathParameters.id`
entry when that is present and non-empty; otherwise, splitting the path on
`/` and discarding empty segments, if the first segment is `items` and at
least two segments exist the id is the remaining segments joined with `/`
(ids may contain slashes), and otherwise no id is resolved. -/
theorem C5_path_id_resolution (e : Event) (path : String) :
    (∀ s, e.pathParametersId = some s → s ≠ "" → _path_id e path = some s) ∧
    ((e.pathParametersId = none ∨ e.pathParametersId = some "") →
      ((2 ≤ ((pySplitChar '/' path).filter (fun s => s != "")).length ∧
          ((pySplitChar '/' path).filter (fun s => s != "")).head? = some "items" →
        _path_id e path =
          some (String.intercalate "/"
            (((pySplitChar '/' path).filter (fun s => s != "")).drop 1))) ∧
       (¬ (2 ≤ ((pySplitChar '/' path).filter (fun s => s != "")).length ∧
          ((pySplitChar '/' path).filter (fun s => s != "")).head? = some "items") →
        _path_id e path = none))) := by
  constructor
  · intro s hs hne
    unfold _path_id
    rw [hs]
    simp [optTruthy, hne]
  · intro h
    have ht : optTruthy e.pathParametersId = false := by
      rcases h with h | h <;> rw [h] <;> simp [optTruthy]
    constructor
    · intro hc
      unfold _path_id
      rw [ht]
      simp only [Bool.false_eq_true, if_false]
      rw [if_pos hc]
    · intro hc
      unfold _path_id
      rw [ht]
      simp only [Bool.false_eq_true, if_false]
      rw [if_neg hc]

/-- C5 witness: a concrete event with `pathParameters.id = "a1"` resolves
to `a1`; with no path parameters, `/items/a/b` resolves to the
slash-containing id `a/b`, and `/other/x` resolves to no id. -/
theorem C5_path_id_resolution_witness :
    _path_id ⟨none, none, none, none, some "a1", none⟩ "/items/zzz" = some "a1" ∧
    _path_id ⟨none, none, none, none, none, none⟩ "/items/a/b" = some "a/b" ∧
    _path_id ⟨none, none, none, none, none, none⟩ "/other/x" = none :=
  ⟨(C5_path_id_resolution ⟨none, none, none, none, some "a1", none⟩ "/items/zzz").1
      "a1" rfl (by decide),
   by
    have h := ((C5_path_id_resolution ⟨none, none, none, none, none, none⟩
      "/items/a/b").2 (Or.inl rfl)).1 (by constructor <;> decide)
    exact h.trans (by decide),
   ((C5_path_id_resolution ⟨none, none, none, none, none, none⟩ "/other/x").2
      (Or.inl rfl)).2 (by decide)⟩

/-- C9: the JSON serializer renders a store-native decimal as an integer
token exactly when the value is integral, as a float token otherwise, and
never as a string token. -/
theorem C9_decimal_rendering (o : PyDecimal) :
    (decIntegral o → DecimalEncoder.default o = .jint (decToInt o)) ∧
    (¬ decIntegral o → DecimalEncoder.default o = .jfloat o) ∧
    ∀ s, DecimalEncoder.default o ≠ .jstr s := by
  refine ⟨fun h => ?_, fun h => ?_, fun s => ?_⟩
  · unfold DecimalEncoder.default
    rw [if_pos h]
  · unfold DecimalEncoder.default
    rw [if_neg h]
  · unfold DecimalEncoder.default
    split <;> simp

/-- C9 witness: `Decimal("3.0")` (integral) renders as the integer `3`,
`Decimal("2.5")` renders as a float. -/
theorem C9_decimal_rendering_witness :
    DecimalEncoder.default ⟨30, 1⟩ = .jint 3 ∧
    DecimalEncoder.default ⟨25, 1⟩ = .jfloat ⟨25, 1⟩ :=
  ⟨((C9_decimal_rendering ⟨30, 1⟩).1 (by decide)).trans (by decide),
   (C9_decimal_rendering ⟨25, 1⟩).2.1 (by decide)⟩

/-- C10: a body that is valid JSON but not an object makes a POST without
path id and a PUT with path id both answer 400 (via the required-field
validation and the body-shape check respectively) with no store call and
the table untouched. -/
theorem C10_non_object_body (cfg : Config) (e : Event)
    (loads : String → Option JVal) (db : Db) (body : JVal)
    (hb : _parse_json_body e.body loads = .ok body)
    (hno : body.isObj = false) :
    (_method e = "POST" → optTruthy (_path_id e (_path e)) = false →
      lambda_handler cfg e loads db =
        .resp (R cfg 400
          (msgBody "必須項目不足: id, description, date を指定してください")) db.table []) ∧
    (_method e = "PUT" → optTruthy (_path_id e (_path e)) = true →
      lambda_handler cfg e loads db =
        .resp (R cfg 400 (msgBody "JSON本文が必要です")) db.table []) := by
  constructor <;> intro hm hi <;>
    (unfold lambda_handler; rw [hb]; unfold route; rw [hm, hi]; cases body <;>
      simp_all [JVal.isObj])

/-- C10 witness: a concrete POST and a concrete PUT whose bodies parse to
the JSON array `[1]` are both answered 400 with no store call. -/
theorem C10_non_object_body_witness :
    (lambda_handler ⟨"*", "H", "M"⟩ ⟨some "POST", none, some "/items", none, none, some "[1]"⟩
        (fun _ => some (.arr [.int 1])) ⟨[], fun _ => ([], none), 0, false, none, false, false⟩ =
      .resp (R ⟨"*", "H", "M"⟩ 400
        (msgBody "必須項目不足: id, description, date を指定してください")) [] []) ∧
    (lambda_handler ⟨"*", "H", "M"⟩ ⟨some "PUT", none, some "/items/a1", none, none, some "[1]"⟩
        (fun _ => some (.arr [.int 1])) ⟨[], fun _ => ([], none), 0, false, none, false, false⟩ =
      .resp (R ⟨"*", "H", "M"⟩ 400 (msgBody "JSON本文が必要です")) [] []) :=
  ⟨(C10_non_object_body ⟨"*", "H", "M"⟩
      ⟨some "POST", none, some "/items", none, none, some "[1]"⟩
      (fun _ => some (.arr [.int 1])) ⟨[], fun _ => ([], none), 0, false, none, false, false⟩
      (.arr [.int 1]) rfl rfl).1 (by rfl) (by rfl),
   (C10_non_object_body ⟨"*", "H", "M"⟩
      ⟨some "PUT", none, some "/items/a1", none, none, some "[1]"⟩
      (fun _ => some (.arr [.int 1])) ⟨[], fun _ => ([], none), 0, false, none, false, false⟩
      (.arr [.int 1]) rfl rfl).2 (by rfl) (by rfl)⟩

/-- The accumulator only grows along `String.intercalate.go`. -/
theorem intercalate_go_length_le (s : String) (l : List String) (acc : String) :
    acc.length ≤ (String.intercalate.go acc s l).length := by
  induction l generalizing acc with
  | nil => exact Nat.le_refl _
  | cons a as ih =>
    have h1 : acc.length ≤ (acc ++ s ++ a).length := by
      rw [String.length_append, String.length_append]
      omega
    exact Nat.le_trans h1 (ih (acc ++ s ++ a))

/-- Joining a list headed by a non-empty segment is non-empty. -/
theorem intercalate_cons_ne_empty (a : String) (as : List String) (ha : a ≠ "") :
    String.intercalate "/" (a :: as) ≠ "" := by
  intro hcontra
  have h1 : a.length ≤ (String.intercalate "/" (a :: as)).length :=
    intercalate_go_length_le "/" as a
  rw [hcontra, String.length_empty, Nat.le_zero] at h1
  apply ha
  cases hs : a.data with
  | nil => cases a; simp_all
  | cons c cs => rw [String.length, hs] at h1; simp at h1

/-- A resolved path id is never the empty string: the path-parameters
branch requires truthiness, and the path-parsing branch joins non-empty
segments. -/
theorem path_id_ne_empty (e : Event) (p : String) (s : String)
    (h : _path_id e p = some s) : s ≠ "" := by
  unfold _path_id at h
  by_cases ht : optTruthy e.pathParametersId = true
  · rw [if_pos ht] at h
    rw [h] at ht
    simpa [optTruthy] using ht
  · rw [if_neg ht] at h
    simp only [] at h
    split at h
    · rename_i hc
      obtain ⟨hlen, _⟩ := hc
      injection h with h
      subst h
      cases hd : ((pySplitChar '/' p).filter (fun s => s != "")).drop 1 with
      | nil =>
        have := congrArg List.length hd
        rw [List.length_drop] at this
        simp at this
        omega
      | cons a as =>
        have ha : a ≠ "" := by
          have hmem : a ∈ (pySplitChar '/' p).filter (fun s => s != "") :=
            List.drop_subset 1 _ (hd ▸ List.mem_cons_self a as)
          have := (List.mem_filter.mp hmem).2
          simpa using this
        exact intercalate_cons_ne_empty a as ha
    · exact absurd h (by simp)

/-- C4: a GET with a resolved id answers 200 both when the item exists
(body is the item) and when it does not (body is JSON `null`); in
particular no 404 is produced. -/
theorem C4_get_by_id (cfg : Config) (e : Event) (loads : String → Option JVal)
    (db : Db) (body : JVal) (i0 : String)
    (hm : _method e = "GET")
    (hi : _path_id e (_path e) = some i0)
    (hb : _parse_json_body e.body loads = .ok body)
    (hg : db.getErr = false) :
    (∀ it, storeGet db.table i0 = some it →
      lambda_handler cfg e loads db =
        .resp (R cfg 200 (.val (.obj it))) db.table [.get i0]) ∧
    (storeGet db.table i0 = none →
      lambda_handler cfg e loads db =
        .resp (R cfg 200 (.val .null)) db.table [.get i0]) := by
  have hne : i0 ≠ "" := path_id_ne_empty e (_path e) i0 hi
  constructor
  · intro it hit
    unfold lambda_handler
    rw [hb]
    unfold route
    rw [hm, hi]
    simp [optTruthy, hne, hg, hit]
  · intro hit
    unfold lambda_handler
    rw [hb]
    unfold route
    rw [hm, hi]
    simp [optTruthy, hne, hg, hit]

/-- C4 witness: concrete GETs on an existing and on a missing id both get
status 200, with the stored item and with `null` respectively. -/
theorem C4_get_by_id_witness :
    (lambda_handler ⟨"*", "H", "M"⟩ ⟨some "GET", none, some "/items/a1", none, none, none⟩
        (fun _ => none)
        ⟨[("a1", [("id", .str "a1"), ("description", .str "d"), ("date", .str "t")])],
         fun _ => ([], none), 0, false, none, false, false⟩ =
      .resp (R ⟨"*", "H", "M"⟩ 200
          (.val (.obj [("id", .str "a1"), ("description", .str "d"), ("date", .str "t")])))
        [("a1", [("id", .str "a1"), ("description", .str "d"), ("date", .str "t")])]
        [.get "a1"]) ∧
    (lambda_handler ⟨"*", "H", "M"⟩ ⟨some "GET", none, some "/items/zz", none, none, none⟩
        (fun _ => none) ⟨[], fun _ => ([], none), 0, false, none, false, false⟩ =
      .resp (R ⟨"*", "H", "M"⟩ 200 (.val .null)) [] [.get "zz"]) :=
  ⟨(C4_get_by_id ⟨"*", "H", "M"⟩ ⟨some "GET", none, some "/items/a1", none, none, none⟩
      (fun _ => none)
      ⟨[("a1", [("id", .str "a1"), ("description", .str "d"), ("date", .str "t")])],
       fun _ => ([], none), 0, false, none, false, false⟩
      (.obj []) "a1" (by rfl) (by rfl) rfl rfl).1
      [("id", .str "a1"), ("description", .str "d"), ("date", .str "t")] rfl,
   (C4_get_by_id ⟨"*", "H", "M"⟩ ⟨some "GET", none, some "/items/zz", none, none, none⟩
      (fun _ => none) ⟨[], fun _ => ([], none), 0, false, none, false, false⟩
      (.obj []) "zz" (by rfl) (by rfl) rfl rfl).2 rfl⟩

/-- C1: a POST without a path id is validated before any store call: a
body failing the required-field check is answered 400 with no call and no
table change; a valid body is normalized to strings and conditionally
created — 200 "created" appending the item on success, 409 with the table
left unchanged when the id already exists, 500 on any other store
failure. -/
theorem C1_post_create (cfg : Config) (e : Event) (loads : String → Option JVal)
    (db : Db) (body : JVal)
    (hm : _method e = "POST")
    (hi : optTruthy (_path_id e (_path e)) = false)
    (hb : _parse_json_body e.body loads = .ok body) :
    (postBodyOk body = false →
      lambda_handler cfg e loads db =
        .resp (R cfg 400
          (msgBody "必須項目不足: id, description, date を指定してください")) db.table []) ∧
    (∀ kvs, body = .obj kvs → postRequiredOk kvs = true →
      (db.putErr = none →
        storeGet db.table (pyStrip (pyStr ((dictGet kvs "id").getD .null))) = none →
        lambda_handler cfg e loads db =
          .resp (R cfg 200 (msgBody "created"))
            (db.table ++ [(pyStrip (pyStr ((dictGet kvs "id").getD .null)),
              [("id", .str (pyStrip (pyStr ((dictGet kvs "id").getD .null)))),
               ("description", .str (pyStr ((dictGet kvs "description").getD .null))),
               ("date", .str (pyStr ((dictGet kvs "date").getD .null)))])])
            [.put [("id", .str (pyStrip (pyStr ((dictGet kvs "id").getD .null)))),
               ("description", .str (pyStr ((dictGet kvs "description").getD .null))),
               ("date", .str (pyStr ((dictGet kvs "date").getD .null)))]]) ∧
      (db.putErr = none →
        ∀ it0, storeGet db.table (pyStrip (pyStr ((dictGet kvs "id").getD .null))) = some it0 →
        lambda_handler cfg e loads db =
          .resp (R cfg 409 (msgBody "同じIDが既に存在します")) db.table
            [.put [("id", .str (pyStrip (pyStr ((dictGet kvs "id").getD .null)))),
               ("description", .str (pyStr ((dictGet kvs "description").getD .null))),
               ("date", .str (pyStr ((dictGet kvs "date").getD .null)))]]) ∧
      (∀ code, db.putErr = some code → code ≠ "ConditionalCheckFailedException" →
        lambda_handler cfg e loads db =
          .resp (R cfg 500 (msgBody "サーバ内部エラー")) db.table
            [.put [("id", .str (pyStrip (pyStr ((dictGet kvs "id").getD .null)))),
               ("description", .str (pyStr ((dictGet kvs "description").getD .null))),
               ("date", .str (pyStr ((dictGet kvs "date").getD .null)))]])) := by
  constructor
  · intro hval
    unfold lambda_handler
    rw [hb]
    unfold route
    rw [hm, hi]
    cases body <;> simp_all [postBodyOk]
  · intro kvs hbody hok
    subst hbody
    refine ⟨fun hput hfresh => ?_, fun hput it0 hdup => ?_, fun code hput hcode => ?_⟩
    · unfold lambda_handler
      rw [hb]
      unfold route
      rw [hm, hi]
      simp only [hok]
      unfold put_item_cond
      rw [hput, hfresh]
      simp
    · unfold lambda_handler
      rw [hb]
      unfold route
      rw [hm, hi]
      simp only [hok]
      unfold put_item_cond
      rw [hput, hdup]
      simp
    · unfold lambda_handler
      rw [hb]
      unfold route
      rw [hm, hi]
      simp only [hok]
      unfold put_item_cond
      rw [hput]
      simp [hcode]

/-- C1 witness: a concrete valid POST (id needing trimming) is created with
normalized fields, a duplicate POST is answered 409 leaving the table
unchanged, and a POST missing `date` is answered 400 with no store call. -/
theorem C1_post_create_witness :
    (lambda_handler ⟨"*", "H", "M"⟩ ⟨some "POST", none, some "/items", none, none, some "B"⟩
        (fun _ => some (.obj [("id", .str " a1 "), ("description", .str "d"), ("date", .str "t")]))
        ⟨[], fun _ => ([], none), 0, false, none, false, false⟩ =
      .resp (R ⟨"*", "H", "M"⟩ 200 (msgBody "created"))
        [("a1", [("id", .str "a1"), ("description", .str "d"), ("date", .str "t")])]
        [.put [("id", .str "a1"), ("description", .str "d"), ("date", .str "t")]]) ∧
    (lambda_handler ⟨"*", "H", "M"⟩ ⟨some "POST", none, some "/items", none, none, some "B"⟩
        (fun _ => some (.obj [("id", .str "a1"), ("description", .str "x"), ("date", .str "y")]))
        ⟨[("a1", [("id", .str "a1"), ("description", .str "d"), ("date", .str "t")])],
         fun _ => ([], none), 0, false, none, false, false⟩ =
      .resp (R ⟨"*", "H", "M"⟩ 409 (msgBody "同じIDが既に存在します"))
        [("a1", [("id", .str "a1"), ("description", .str "d"), ("date", .str "t")])]
        [.put [("id", .str "a1"), ("description", .str "x"), ("date", .str "y")]]) ∧
    (lambda_handler ⟨"*", "H", "M"⟩ ⟨some "POST", none, some "/items", none, none, some "B"⟩
        (fun _ => some (.obj [("id", .str "a1"), ("description", .str "d")]))
        ⟨[], fun _ => ([], none), 0, false, none, false, false⟩ =
      .resp (R ⟨"*", "H", "M"⟩ 400
        (msgBody "必須項目不足: id, description, date を指定してください")) [] []) := by
  refine ⟨?_, ?_, ?_⟩
  · exact ((C1_post_create ⟨"*", "H", "M"⟩
      ⟨some "POST", none, some "/items", none, none, some "B"⟩
      (fun _ => some (.obj [("id", .str " a1 "), ("description", .str "d"), ("date", .str "t")]))
      ⟨[], fun _ => ([], none), 0, false, none, false, false⟩
      (.obj [("id", .str " a1 "), ("description", .str "d"), ("date", .str "t")])
      (by rfl) (by rfl) rfl).2
      [("id", .str " a1 "), ("description", .str "d"), ("date", .str "t")]
      rfl (by rfl)).1 rfl (by rfl)
  · exact ((C1_post_create ⟨"*", "H", "M"⟩
      ⟨some "POST", none, some "/items", none, none, some "B"⟩
      (fun _ => some (.obj [("id", .str "a1"), ("description", .str "x"), ("date", .str "y")]))
      ⟨[("a1", [("id", .str "a1"), ("description", .str "d"), ("date", .str "t")])],
       fun _ => ([], none), 0, false, none, false, false⟩
      (.obj [("id", .str "a1"), ("description", .str "x"), ("date", .str "y")])
      (by rfl) (by rfl) rfl).2
      [("id", .str "a1"), ("description", .str "x"), ("date", .str "y")]
      rfl (by rfl)).2.1 rfl
      [("id", .str "a1"), ("description", .str "d"), ("date", .str "t")] (by rfl)
  · exact (C1_post_create ⟨"*", "H", "M"⟩
      ⟨some "POST", none, some "/items", none, none, some "B"⟩
      (fun _ => some (.obj [("id", .str "a1"), ("description", .str "d")]))
      ⟨[], fun _ => ([], none), 0, false, none, false, false⟩
      (.obj [("id", .str "a1"), ("description", .str "d")])
      (by rfl) (by rfl) rfl).1 (by rfl)

/-- Setting an attribute makes it readable. -/
theorem dictGet_setAttr_self (it : Item) (k : String) (v : JVal) :
    dictGet (setAttr it k v) k = some v := by
  induction it with
  | nil => simp [setAttr, dictGet]
  | cons kv rest ih =>
    obtain ⟨k', v'⟩ := kv
    by_cases h : k' = k
    · subst h
      simp [setAttr, dictGet]
    · simp [setAttr, dictGet, h, ih]

/-- Setting an attribute leaves the others unchanged. -/
theorem dictGet_setAttr_ne (it : Item) (k k' : String) (v : JVal)
    (h : k' ≠ k) : dictGet (setAttr it k v) k' = dictGet it k' := by
  have hkk : ¬ k = k' := fun hh => h hh.symm
  induction it with
  | nil => simp [setAttr, dictGet, hkk]
  | cons kv rest ih =>
    obtain ⟨k0, v0⟩ := kv
    by_cases h0 : k0 = k
    · subst h0
      simp [setAttr, dictGet, hkk]
    · simp only [setAttr, if_neg h0]
      by_cases h1 : k0 = k'
      · simp [dictGet, h1]
      · simp [dictGet, h1, ih]

/-- Attributes not named in the `SET` clauses are untouched. -/
theorem applySets_frame (it : Item) (sets : List (String × JVal)) (k : String)
    (h : ∀ p ∈ sets, p.1 ≠ k) :
    dictGet (applySets it sets) k = dictGet it k := by
  induction sets generalizing it with
  | nil => rfl
  | cons p rest ih =>
    obtain ⟨k0, v0⟩ := p
    rw [applySets]
    rw [ih _ fun q hq => h q (List.mem_cons_of_mem _ hq)]
    exact dictGet_setAttr_ne it k0 k v0
      fun hh => h (k0, v0) (List.mem_cons_self _ _) hh.symm

/-- C2: a PUT with a path id and an object body updates exactly the fields
among `description` / `date` whose keys are present (an explicit null is
stored as null via `strOrNull`), leaves absent fields and every other
attribute — in particular `id` — unchanged, and with neither key present
answers 400 without calling the store. -/
theorem C2_put_partial_update (cfg : Config) (e : Event)
    (loads : String → Option JVal) (db : Db) (kvs : List (String × JVal))
    (i0 : String)
    (hm : _method e = "PUT")
    (hi : _path_id e (_path e) = some i0)
    (hb : _parse_json_body e.body loads = .ok (.obj kvs))
    (hu : db.updErr = false) :
    (dictGet kvs "description" = none → dictGet kvs "date" = none →
      lambda_handler cfg e loads db =
        .resp (R cfg 400
          (msgBody "更新対象のフィールドがありません (description / date)")) db.table []) ∧
    (∀ it0, storeGet db.table i0 = some it0 → putSets kvs ≠ [] →
      lambda_handler cfg e loads db =
        .resp (R cfg 200 (msgBody "updated"))
          (storePut db.table i0 (applySets it0 (putSets kvs)))
          [.update i0 (putSets kvs)] ∧
      dictGet (applySets it0 (putSets kvs)) "id" = dictGet it0 "id" ∧
      (dictGet kvs "description" = none →
        dictGet (applySets it0 (putSets kvs)) "description" =
          dictGet it0 "description") ∧
      (∀ v, dictGet kvs "description" = some v →
        dictGet (applySets it0 (putSets kvs)) "description" = some (strOrNull v)) ∧
      (dictGet kvs "date" = none →
        dictGet (applySets it0 (putSets kvs)) "date" = dictGet it0 "date") ∧
      (∀ v, dictGet kvs "date" = some v →
        dictGet (applySets it0 (putSets kvs)) "date" = some (strOrNull v)) ∧
      (∀ k, k ≠ "description" → k ≠ "date" →
        dictGet (applySets it0 (putSets kvs)) k = dictGet it0 k)) := by
  have hne : i0 ≠ "" := path_id_ne_empty e (_path e) i0 hi
  constructor
  · intro hd ht
    unfold lambda_handler
    rw [hb]
    unfold route
    rw [hm, hi]
    simp [optTruthy, hne, putSets, hd, ht]
  · intro it0 hit0 hsets
    have hkeys : ∀ p ∈ putSets kvs, p.1 = "description" ∨ p.1 = "date" := by
      intro p hp
      unfold putSets at hp
      rcases List.mem_append.mp hp with h | h <;>
        split at h <;> simp_all
    refine ⟨?_, ?_, ?_, ?_, ?_, ?_, ?_⟩
    · unfold lambda_handler
      rw [hb]
      unfold route
      rw [hm, hi]
      have hemp : (putSets kvs).isEmpty = false := by
        cases hp : putSets kvs with
        | nil => exact absurd hp hsets
        | cons a l => rfl
      unfold update_item
      simp [optTruthy, hne, hemp, hu, hit0]
    · exact applySets_frame it0 _ "id" fun p hp => by
        rcases hkeys p hp with h | h <;> simp [h]
    · intro hd
      refine applySets_frame it0 _ "description" fun p hp => ?_
      unfold putSets at hp
      rw [hd] at hp
      simp at hp
      split at hp <;> simp_all
    · intro v hv
      cases hdate : dictGet kvs "date" with
      | none =>
        have : putSets kvs = [("description", strOrNull v)] := by
          unfold putSets
          rw [hv, hdate]
          rfl
        rw [this]
        show dictGet (setAttr it0 "description" (strOrNull v)) "description" = _
        exact dictGet_setAttr_self it0 "description" (strOrNull v)
      | some w =>
        have : putSets kvs = [("description", strOrNull v), ("date", strOrNull w)] := by
          unfold putSets
          rw [hv, hdate]
          rfl
        rw [this]
        show dictGet (setAttr (setAttr it0 "description" (strOrNull v)) "date"
          (strOrNull w)) "description" = _
        rw [dictGet_setAttr_ne _ "date" "description" _ (by decide)]
        exact dictGet_setAttr_self it0 "description" (strOrNull v)
    · intro ht
      refine applySets_frame it0 _ "date" fun p hp => ?_
      unfold putSets at hp
      rw [ht] at hp
      simp at hp
      split at hp <;> simp_all
    · intro v hv
      cases hdesc : dictGet kvs "description" with
      | none =>
        have : putSets kvs = [("date", strOrNull v)] := by
          unfold putSets
          rw [hv, hdesc]
          rfl
        rw [this]
        show dictGet (setAttr it0 "date" (strOrNull v)) "date" = _
        exact dictGet_setAttr_self it0 "date" (strOrNull v)
      | some w =>
        have : putSets kvs = [("description", strOrNull w), ("date", strOrNull v)] := by
          unfold putSets
          rw [hv, hdesc]
          rfl
        rw [this]
        show dictGet (setAttr (setAttr it0 "description" (strOrNull w)) "date"
          (strOrNull v)) "date" = _
        exact dictGet_setAttr_self _ "date" (strOrNull v)
    · intro k hkd hkt
      exact applySets_frame it0 _ k fun p hp => by
        rcases hkeys p hp with h | h
        · rw [h]
          exact fun hh => hkd hh.symm
        · rw [h]
          exact fun hh => hkt hh.symm

/-- C2 witness: a concrete PUT carrying only `date` updates `date`, leaves
`description` (and `id`) unchanged, and a PUT carrying neither field is
answered 400 with no store call. -/
theorem C2_put_partial_update_witness :
    (lambda_handler ⟨"*", "H", "M"⟩ ⟨some "PUT", none, some "/items/a1", none, none, some "P"⟩
        (fun _ => some (.obj [("date", .str "2024-02-02")]))
        ⟨[("a1", [("id", .str "a1"), ("description", .str "d"), ("date", .str "t")])],
         fun _ => ([], none), 0, false, none, false, false⟩ =
      .resp (R ⟨"*", "H", "M"⟩ 200 (msgBody "updated"))
        [("a1", [("id", .str "a1"), ("description", .str "d"), ("date", .str "2024-02-02")])]
        [.update "a1" [("date", .str "2024-02-02")]]) ∧
    (dictGet (applySets [("id", .str "a1"), ("description", .str "d"), ("date", .str "t")]
        (putSets [("date", .str "2024-02-02")])) "description" = some (.str "d")) ∧
    (lambda_handler ⟨"*", "H", "M"⟩ ⟨some "PUT", none, some "/items/a1", none, none, some "P"⟩
        (fun _ => some (.obj [("other", .int 1)]))
        ⟨[("a1", [("id", .str "a1"), ("description", .str "d"), ("date", .str "t")])],
         fun _ => ([], none), 0, false, none, false, false⟩ =
      .resp (R ⟨"*", "H", "M"⟩ 400
        (msgBody "更新対象のフィールドがありません (description / date)"))
        [("a1", [("id", .str "a1"), ("description", .str "d"), ("date", .str "t")])] []) := by
  refine ⟨?_, ?_, ?_⟩
  · exact ((C2_put_partial_update ⟨"*", "H", "M"⟩
      ⟨some "PUT", none, some "/items/a1", none, none, some "P"⟩
      (fun _ => some (.obj [("date", .str "2024-02-02")]))
      ⟨[("a1", [("id", .str "a1"), ("description", .str "d"), ("date", .str "t")])],
       fun _ => ([], none), 0, false, none, false, false⟩
      [("date", .str "2024-02-02")] "a1" (by rfl) (by rfl) rfl rfl).2
      [("id", .str "a1"), ("description", .str "d"), ("date", .str "t")] rfl
      (fun h => List.cons_ne_nil _ _ h)).1
  · exact (((C2_put_partial_update ⟨"*", "H", "M"⟩
      ⟨some "PUT", none, some "/items/a1", none, none, some "P"⟩
      (fun _ => some (.obj [("date", .str "2024-02-02")]))
      ⟨[("a1", [("id", .str "a1"), ("description", .str "d"), ("date", .str "t")])],
       fun _ => ([], none), 0, false, none, false, false⟩
      [("date", .str "2024-02-02")] "a1" (by rfl) (by rfl) rfl rfl).2
      [("id", .str "a1"), ("description", .str "d"), ("date", .str "t")] rfl
      (fun h => List.cons_ne_nil _ _ h)).2.2.1 rfl).trans (by rfl)
  · exact (C2_put_partial_update ⟨"*", "H", "M"⟩
      ⟨some "PUT", none, some "/items/a1", none, none, some "P"⟩
      (fun _ => some (.obj [("other", .int 1)]))
      ⟨[("a1", [("id", .str "a1"), ("description", .str "d"), ("date", .str "t")])],
       fun _ => ([], none), 0, false, none, false, false⟩
      [("other", .int 1)] "a1" (by rfl) (by rfl) rfl rfl).1 rfl rfl

/-- C7 counterexample: with no path id and a body whose `id` field is
present but the empty string, the handler answers 400 "id required" with
no store call instead of proceeding to an (idempotent) delete by that
id. -/
theorem C7_counterexample :
    dictGet [("id", .str "")] "id" = some (.str "") ∧
    lambda_handler ⟨"*", "H", "M"⟩ ⟨some "DELETE", none, some "/items", none, none, some "D"⟩
        (fun _ => some (.obj [("id", .str "")]))
        ⟨[], fun _ => ([], none), 0, false, none, false, false⟩ =
      .resp (R ⟨"*", "H", "M"⟩ 400 (msgBody "id 必須")) [] [] :=
  ⟨rfl, by rfl⟩

/-- C7 (amended): the delete id is the path id when present, else the `id`
field of the body; if the resolved delete id is absent or falsy (e.g. the
empty string) the handler returns 400 "id required" without calling the
store; otherwise it deletes by that id, returning a success response that
does not depend on the table contents (idempotent delete), with an
injected store failure mapped to 500. -/
theorem C7_delete (cfg : Config) (e : Event) (loads : String → Option JVal)
    (db : Db) (body : JVal)
    (hm : _method e = "DELETE")
    (hb : _parse_json_body e.body loads = .ok body) :
    (optJTruthy (delIdOf (_path_id e (_path e)) body) = false →
      lambda_handler cfg e loads db =
        .resp (R cfg 400 (msgBody "id 必須")) db.table []) ∧
    (∀ s, delIdOf (_path_id e (_path e)) body = some (.str s) → s ≠ "" →
      (db.delErr = false →
        lambda_handler cfg e loads db =
          .resp (R cfg 200 (msgBody "deleted")) (storeErase db.table s)
            [.delete (.str s)]) ∧
      (db.delErr = true →
        lambda_handler cfg e loads db =
          .resp (R cfg 500 (msgBody "サーバ内部エラー")) db.table [.delete (.str s)]) ∧
      (∀ st2 : Store,
        (lambda_handler cfg e loads ⟨st2, db.scanOracle, db.scanFuel, db.getErr,
          db.putErr, db.updErr, db.delErr⟩).response =
        (lambda_handler cfg e loads db).response)) := by
  constructor
  · intro hfalse
    unfold lambda_handler
    rw [hb]
    unfold route
    rw [hm]
    cases hdel : delIdOf (_path_id e (_path e)) body with
    | none => simp [hdel]
    | some v =>
      rw [hdel] at hfalse
      simp only [optJTruthy] at hfalse
      simp [hdel, hfalse]
  · intro s hdel hs
    have hgen : ∀ (tbl : Store) (derr : Bool),
        lambda_handler cfg e loads ⟨tbl, db.scanOracle, db.scanFuel, db.getErr,
          db.putErr, db.updErr, derr⟩ =
        (if derr then
          .resp (R cfg 500 (msgBody "サーバ内部エラー")) tbl [.delete (.str s)]
        else
          .resp (R cfg 200 (msgBody "deleted")) (storeErase tbl s)
            [.delete (.str s)]) := by
      intro tbl derr
      unfold lambda_handler
      rw [hb]
      unfold route
      rw [hm]
      unfold delete_item
      cases derr <;> simp [hdel, pyTruthy, hs]
    refine ⟨fun hderr => ?_, fun hderr => ?_, fun st2 => ?_⟩
    · have h := hgen db.table db.delErr
      rw [show (⟨db.table, db.scanOracle, db.scanFuel, db.getErr, db.putErr,
        db.updErr, db.delErr⟩ : Db) = db from rfl] at h
      rw [hderr] at h
      simpa using h
    · have h := hgen db.table db.delErr
      rw [show (⟨db.table, db.scanOracle, db.scanFuel, db.getErr, db.putErr,
        db.updErr, db.delErr⟩ : Db) = db from rfl] at h
      rw [hderr] at h
      simpa using h
    · rw [hgen st2 db.delErr, show lambda_handler cfg e loads db =
        lambda_handler cfg e loads ⟨db.table, db.scanOracle, db.scanFuel,
          db.getErr, db.putErr, db.updErr, db.delErr⟩ from rfl,
        hgen db.table db.delErr]
      cases db.delErr <;> rfl

/-- C7 witness: a concrete DELETE of an existing id and of an absent id
(path and body variants) both succeed with the same "deleted" response,
and a DELETE with no id anywhere is answered 400. -/
theorem C7_delete_witness :
    (lambda_handler ⟨"*", "H", "M"⟩ ⟨some "DELETE", none, some "/items/a1", none, none, none⟩
        (fun _ => none)
        ⟨[("a1", [("id", .str "a1")])], fun _ => ([], none), 0, false, none, false, false⟩ =
      .resp (R ⟨"*", "H", "M"⟩ 200 (msgBody "deleted")) [] [.delete (.str "a1")]) ∧
    (lambda_handler ⟨"*", "H", "M"⟩ ⟨some "DELETE", none, some "/items/a1", none, none, none⟩
        (fun _ => none) ⟨[], fun _ => ([], none), 0, false, none, false, false⟩ =
      .resp (R ⟨"*", "H", "M"⟩ 200 (msgBody "deleted")) [] [.delete (.str "a1")]) ∧
    (lambda_handler ⟨"*", "H", "M"⟩ ⟨some "DELETE", none, some "/items", none, none, none⟩
        (fun _ => none) ⟨[], fun _ => ([], none), 0, false, none, false, false⟩ =
      .resp (R ⟨"*", "H", "M"⟩ 400 (msgBody "id 必須")) [] []) := by
  refine ⟨?_, ?_, ?_⟩
  · exact (((C7_delete ⟨"*", "H", "M"⟩ ⟨some "DELETE", none, some "/items/a1", none, none, none⟩
      (fun _ => none)
      ⟨[("a1", [("id", .str "a1")])], fun _ => ([], none), 0, false, none, false, false⟩
      (.obj []) (by rfl) rfl).2 "a1" (by rfl) (by decide)).1 rfl).trans (by rfl)
  · exact (((C7_delete ⟨"*", "H", "M"⟩ ⟨some "DELETE", none, some "/items/a1", none, none, none⟩
      (fun _ => none) ⟨[], fun _ => ([], none), 0, false, none, false, false⟩
      (.obj []) (by rfl) rfl).2 "a1" (by rfl) (by decide)).1 rfl).trans (by rfl)
  · exact (C7_delete ⟨"*", "H", "M"⟩ ⟨some "DELETE", none, some "/items", none, none, none⟩
      (fun _ => none) ⟨[], fun _ => ([], none), 0, false, none, false, false⟩
      (.obj []) (by rfl) rfl).1 (by rfl)

/-- If the continuation chain stops within the fuel, the scan loop
terminates, returning the accumulated items extended by the concatenation
of the pages along the chain, and issues one `scan` call per chain step. -/
theorem scanLoop_of_stops (oracle : Option Nat → List Item × Option Nat)
    (n : Nat) :
    ∀ (k : Option Nat) (acc : List Item) (calls : List DbCall),
    scanStops oracle n k = true →
    scanLoop oracle n k acc calls =
      (some (acc ++ (scanPages oracle n k).flatten),
       calls ++ (scanKeys oracle n k).map DbCall.scan) := by
  induction n with
  | zero =>
    intro k acc calls h
    simp [scanStops] at h
  | succ n ih =>
    intro k acc calls h
    rw [scanStops] at h
    rw [scanLoop, scanPages, scanKeys]
    cases hk : (oracle k).2 with
    | none => simp [hk]
    | some k2 =>
      rw [hk] at h
      simp only [hk]
      rw [ih (some k2) (acc ++ (oracle k).1) (calls ++ [DbCall.scan k]) h]
      simp

/-- C8: a GET without a resolved id drains the store's scan pagination:
under the precondition that the continuation chain is finite (within the
fuel) the loop terminates, issues one sequential scan call per chain step,
and returns 200 with the concatenation of every page — by the oracle
coverage hypothesis, the array of all items in the table. -/
theorem C8_list_scan (cfg : Config) (e : Event) (loads : String → Option JVal)
    (db : Db) (body : JVal)
    (hm : _method e = "GET")
    (hi : optTruthy (_path_id e (_path e)) = false)
    (hb : _parse_json_body e.body loads = .ok body)
    (hstop : scanStops db.scanOracle db.scanFuel none = true)
    (hcover : (scanPages db.scanOracle db.scanFuel none).flatten =
      db.table.map Prod.snd) :
    lambda_handler cfg e loads db =
      .resp (R cfg 200 (.val (.arr ((db.table.map Prod.snd).map JVal.obj))))
        db.table
        ((scanKeys db.scanOracle db.scanFuel none).map DbCall.scan) := by
  unfold lambda_handler
  rw [hb]
  unfold route
  rw [hm, hi]
  rw [scanLoop_of_stops db.scanOracle db.scanFuel none [] [] hstop]
  simp [hcover]

/-- C8 witness: a two-page scan chain covering a two-item table terminates
and returns both items, issuing the two chained scan calls. -/
theorem C8_list_scan_witness :
    lambda_handler ⟨"*", "H", "M"⟩ ⟨some "GET", none, some "/items", none, none, none⟩
      (fun _ => none)
      ⟨[("x", [("id", .str "x")]), ("y", [("id", .str "y")])],
       fun k => match k with
         | none => ([[("id", .str "x")]], some 0)
         | some _ => ([[("id", .str "y")]], none),
       2, false, none, false, false⟩ =
    .resp (R ⟨"*", "H", "M"⟩ 200
        (.val (.arr [.obj [("id", .str "x")], .obj [("id", .str "y")]])))
      [("x", [("id", .str "x")]), ("y", [("id", .str "y")])]
      [.scan none, .scan (some 0)] :=
  (C8_list_scan ⟨"*", "H", "M"⟩ ⟨some "GET", none, some "/items", none, none, none⟩
    (fun _ => none)
    ⟨[("x", [("id", .str "x")]), ("y", [("id", .str "y")])],
     fun k => match k with
       | none => ([[("id", .str "x")]], some 0)
       | some _ => ([[("id", .str "y")]], none),
     2, false, none, false, false⟩
    (.obj []) (by rfl) (by rfl) rfl (by rfl) (by rfl)).trans (by rfl)
